import Mathlib

set_option maxRecDepth 4000
set_option maxHeartbeats 1000000

/-!
Shallow embedding of the material-resolution core of the Render workbench
(Render/rdrmaterials.py) and of the material-facing part of the POV-Ray
backend (Render/renderers/Povray.py), together with theorems settling the
frozen claims about this code.

Conventions of the embedding:
  - Python floats are modelled as rationals; numeric string conversion is
    modelled exactly on plain decimal form, the only form the
    embedded code produces or consumes.
  - fallible Python code is modelled in the Except monad over PyErr, whose
    constructors name the Python exception classes that can be raised.
  - Python dictionaries are association lists with dict update semantics
    (update keeps the insertion position, insertion appends at the end).
  - the unbounded father-chain recursion of get_rendering_material is
    modelled with a fuel argument: exhausted fuel returns recursionError,
    exactly as CPython raises RecursionError when the interpreter stack
    limit is reached.
-/

deriving instance DecidableEq for Except

namespace FCRender

/-- Python exception classes that the embedded code paths can raise. -/
inductive PyErr where
  | typeError
  | valueError
  | keyError
  | attributeError
  | indexError
  | assertionError
  | recursionError
  deriving DecidableEq, Repr

/-- Dictionary lookup on an association list (Python dict.get). -/
def alget {α : Type} : List (String × α) → String → Option α
  | [], _ => Option.none
  | (k, v) :: t, key => if k = key then some v else alget t key

/-- Dictionary assignment on an association list: an existing key keeps its
position, a new key is appended, as in a Python dict. -/
def alset {α : Type} : List (String × α) → String → α → List (String × α)
  | [], key, v => [(key, v)]
  | (k, w) :: t, key, v => if k = key then (key, v) :: t else (k, w) :: alset t key v

/-- Accumulate the decimal value of a digit list (helper of pyFloat?). -/
def readDigits : List Char → Nat → Nat
  | [], acc => acc
  | c :: t, acc => readDigits t (acc * 10 + (c.toNat - 48))

/-- Python float() applied to a string, restricted to plain decimal
form, the only form produced by the embedded code: an optional
minus sign, integer digits, an optional point and fraction digits.
Returns the exact rational value; a malformed literal (for instance a
non-numeric token) gives Option.none, standing for ValueError. -/
def pyFloat? (s : String) : Option Rat :=
  let (neg, cs) := match s.data with
    | '-' :: t => (true, t)
    | cs => (false, cs)
  let ip := cs.takeWhile (fun c => c != '.')
  let rest := cs.dropWhile (fun c => c != '.')
  let fp? : Option (List Char) := match rest with
    | [] => some []
    | '.' :: t => if t.contains '.' then Option.none else some t
    | _ => Option.none
  match fp? with
  | Option.none => Option.none
  | some fp =>
    if ip.isEmpty && fp.isEmpty then Option.none
    else if ip.all Char.isDigit && fp.all Char.isDigit then
      let n := readDigits (ip ++ fp) 0
      let q : Rat := mkRat (Int.ofNat n) (10 ^ fp.length)
      some (if neg then -q else q)
    else Option.none

/-- Left-pad a string with zeros up to a width (helper of pyStr). -/
def natPad (w : Nat) (s : String) : String :=
  String.mk (List.replicate (w - s.length) '0') ++ s

/-- Python str() applied to a numeric value. The embedded code applies it
to floats whose denominator divides a power of ten (every Python float
does) and to the small integers of parameter defaults; both print as exact
decimals here. Integral values print without a decimal point (Python
prints 1.0 for the float 1.0; the difference is invisible to every reparse
the embedded code performs). A rational that is not a decimal prints as a
fraction, which no reparse accepts; such values do not arise from Python
floats. -/
def pyStr (q : Rat) : String :=
  let sign := if q < 0 then "-" else ""
  let n := q.num.natAbs
  let d := q.den
  match (List.range 30).find? (fun k => 10 ^ k % d == 0) with
  | some 0 => sign ++ Nat.repr n
  | some k =>
    let m := n * (10 ^ k / d)
    sign ++ Nat.repr (m / 10 ^ k) ++ "." ++ natPad k (Nat.repr (m % 10 ^ k))
  | Option.none => sign ++ Nat.repr n ++ "/" ++ Nat.repr d

/-- Split a character list at every occurrence of a separator; total and
never returns an empty list (the empty input yields one empty field). -/
def splitChars (sep : Char) : List Char → List (List Char)
  | [] => [[]]
  | c :: cs =>
    if c == sep then [] :: splitChars sep cs
    else match splitChars sep cs with
      | [] => [[c]]
      | h :: t => (c :: h) :: t

/-- Modelled from the spec: parse_csv_str of Render.utils, which is absent
from the sources. The spec describes the raw value as a delimiter
separated string whose first token is a discriminator; the delimiter is
the semicolon, so that a color token such as 0.8,0.8,0.8 stays a single
field from which the color cast then reads three floats, as the spec
states for Color-typed parameters. Quoting of embedded separators is not
modelled; no embedded code path produces quoted fields. -/
def parse_csv_str (s : String) : List String :=
  (splitChars ';' s.data).map String.mk

/-- Python str.lower on the character list of a string. -/
def lowerStr (s : String) : String := String.mk (s.data.map Char.toLower)

/-- Python str.split at a single-character separator. -/
def splitStr (sep : Char) (s : String) : List String :=
  (splitChars sep s.data).map String.mk

/-- RGB color triple (the RGB namedtuple of Render.utils). -/
structure RGB where
  r : Rat
  g : Rat
  b : Rat
  deriving DecidableEq, Repr

/-- RGBA color quadruple (the RGBA namedtuple of Render.utils). -/
structure RGBA where
  r : Rat
  g : Rat
  b : Rat
  a : Rat
  deriving DecidableEq, Repr

/-- Modelled from the spec: str2rgb of Render.utils, which is absent from
the sources. It converts an (r,g,b)-like literal into an RGB triple:
three comma separated floats, optionally parenthesized, blanks ignored
(the Python original feeds ast.literal_eval into RGB._make). A scalar
literal or the literal None raises TypeError (a non-iterable), as does a
wrong component count (a namedtuple arity mismatch); a malformed literal
raises ValueError. An empty literal is also mapped to ValueError here (the
Python original raises SyntaxError there; no embedded code path reaches
it). -/
def str2rgb (s : String) : Except PyErr RGB :=
  let cs0 := s.data.filter (fun c => c != ' ')
  let cs := match cs0 with
    | '(' :: rest => if rest.getLast? == some ')' then rest.dropLast else '(' :: rest
    | other => other
  if cs == "None".data then .error .typeError
  else
    let vals := ((splitChars ',' cs).map String.mk).map pyFloat?
    if vals.all Option.isSome then
      match vals with
      | [some a, some b, some c] => .ok ⟨a, b, c⟩
      | _ => .error .typeError
    else .error .valueError

/-- Exact division of a rational by a positive integer, kept in mkRat form
so that the kernel can evaluate it (the library rational division is
irreducible). -/
def ratDivNat (q : Rat) (n : Nat) : Rat := mkRat q.num (q.den * n)

/-- Join a list of strings with a separator (Python str.join). -/
def joinSep (sep : String) : List String → String
  | [] => ""
  | [s] => s
  | s :: t => s ++ sep ++ joinSep sep t

/-- A material card dictionary: the string keyed property bag of a
FreeCAD material. -/
abbrev MatDict := List (String × String)

/-- A texture object of the active document: its Label, its image file
properties keyed by name, and its placement data (already converted to
degrees and meters, as the source reads them with getValueAs). -/
structure TexObject where
  label : String
  images : List (String × String)
  rotation : Rat
  scale : Rat
  translation_u : Rat
  translation_v : Rat

/-- A document object as seen by is_valid_material: whether it derives
from App MaterialObjectPython, whether it carries a Material dictionary
attribute, and that dictionary. -/
structure FCObject where
  isMaterialObject : Bool
  hasMaterialAttr : Bool
  material : MatDict

/-- The active document: its objects and its texture objects by name. -/
structure Document where
  objects : List FCObject
  textures : List (String × TexObject)

/-- The RendererTexture namedtuple of rdrmaterials. The Python namedtuple
also carries an is_texture field defaulted to None whose only role is to
make hasattr(value, "is_texture") true; here that test is modelled by the
value being of this type. -/
structure RendererTexture where
  name : String
  subname : String
  file : String
  rotation : Rat
  scale : Rat
  translation_u : Rat
  translation_v : Rat
  deriving DecidableEq, Repr

/-- A runtime value held in a shader parameter slot. -/
inductive PropValue where
  | flt (v : Rat)
  | col (c : RGB)
  | cola (c : RGBA)
  | str (s : String)
  | tex (t : RendererTexture)
  | pynone
  deriving DecidableEq, Repr

/-- A dynamic attribute tree node: a leaf value or a SimpleNamespace with
named children (the namespace-by-setattr pattern of RenderMaterial). -/
inductive PNode where
  | leaf (v : PropValue)
  | ns (children : List (String × PNode))

/-- Python getattr on an embedded runtime value: a namespace exposes its
children, the RGB and RGBA namedtuples expose their channel fields, a
RendererTexture exposes its fields (is_texture defaulting to None); any
other access raises AttributeError. -/
def PNode.getattr : PNode → String → Except PyErr PNode
  | .ns children, a =>
    match alget children a with
    | some child => .ok child
    | Option.none => .error .attributeError
  | .leaf (.col c), a =>
    if a = "r" then .ok (.leaf (.flt c.r))
    else if a = "g" then .ok (.leaf (.flt c.g))
    else if a = "b" then .ok (.leaf (.flt c.b))
    else .error .attributeError
  | .leaf (.cola c), a =>
    if a = "r" then .ok (.leaf (.flt c.r))
    else if a = "g" then .ok (.leaf (.flt c.g))
    else if a = "b" then .ok (.leaf (.flt c.b))
    else if a = "a" then .ok (.leaf (.flt c.a))
    else .error .attributeError
  | .leaf (.tex t), a =>
    if a = "name" then .ok (.leaf (.str t.name))
    else if a = "subname" then .ok (.leaf (.str t.subname))
    else if a = "file" then .ok (.leaf (.str t.file))
    else if a = "rotation" then .ok (.leaf (.flt t.rotation))
    else if a = "scale" then .ok (.leaf (.flt t.scale))
    else if a = "translation_u" then .ok (.leaf (.flt t.translation_u))
    else if a = "translation_v" then .ok (.leaf (.flt t.translation_v))
    else if a = "is_texture" then .ok (.leaf .pynone)
    else .error .attributeError
  | .leaf _, _ => .error .attributeError

/-- A raw Python value fed to a cast function: the string fetched from the
material card, None for an absent key, or a parameter default (a tuple of
numbers, a number, or a string). -/
inductive PyVal where
  | pstr (s : String)
  | pnone
  | ptuple3 (a b c : Rat)
  | pflt (v : Rat)
  deriving DecidableEq, Repr

/-- Python str() on a raw value, as the cast functions apply it first. -/
def pyStrOfVal : PyVal → String
  | .pstr s => s
  | .pnone => "None"
  | .ptuple3 a b c => "(" ++ pyStr a ++ ", " ++ pyStr b ++ ", " ++ pyStr c ++ ")"
  | .pflt v => pyStr v

/-- Modelled from the spec: str2imageid of Render.texture, which is absent
from the sources. The spec describes the second token as a compound
texture identifier, texture name and channel separated by a colon. -/
def str2imageid (s : String) : Except PyErr (String × String) :=
  match splitStr ':' s with
  | [t, i] => .ok (t, i)
  | _ => .error .valueError

/-- Texture branch shared by the cast functions: read the compound
identifier from the second parsed token, look the texture object up in the
active document (a missing object is None, and the following attribute
access raises AttributeError), read the image file property, and build the
RendererTexture. -/
def buildTexture (doc : Document) (parsed : List String) : Except PyErr PropValue := do
  let s ← match parsed.get? 1 with
    | some s => Except.ok s
    | Option.none => Except.error PyErr.indexError
  let ti ← str2imageid s
  let tex ← match alget doc.textures ti.1 with
    | some t => Except.ok t
    | Option.none => Except.error PyErr.attributeError
  let file ← match alget tex.images ti.2 with
    | some f => Except.ok f
    | Option.none => Except.error PyErr.attributeError
  Except.ok (PropValue.tex ⟨tex.label, ti.2, file, tex.rotation, tex.scale,
    tex.translation_u, tex.translation_v⟩)

/-- Cast an extended RGB field value (rdrmaterials _castrgb): the Object
marker returns the object color unchanged, the Texture marker builds a
RendererTexture, otherwise the first token goes through str2rgb. -/
def _castrgb (doc : Document) (val : PyVal) (objcol : PropValue) : Except PyErr PropValue :=
  let parsed := parse_csv_str (pyStrOfVal val)
  if parsed.contains "Object" then .ok objcol
  else if parsed.contains "Texture" then buildTexture doc parsed
  else
    match parsed with
    | [] => .error .indexError
    | v :: _ => (str2rgb v).map PropValue.col

/-- Cast an extended float field value (rdrmaterials _castfloat): the
Texture marker builds a RendererTexture, an empty first token yields 0.0,
otherwise the token goes through float(), whose failure on a non-numeric
token is ValueError. -/
def _castfloat (doc : Document) (val : PyVal) : Except PyErr PropValue :=
  let parsed := parse_csv_str (pyStrOfVal val)
  if parsed.contains "Texture" then buildTexture doc parsed
  else
    match parsed with
    | [] => .error .indexError
    | v :: _ =>
      if v = "" then .ok (.flt 0)
      else match pyFloat? v with
        | some q => .ok (.flt q)
        | Option.none => .error .valueError

/-- Cast to a string value (rdrmaterials _caststr). -/
def _caststr (val : PyVal) : Except PyErr PropValue :=
  .ok (.str (pyStrOfVal val))

/-- Cast a texture-only field value (rdrmaterials _casttexonly): the
Texture marker builds a RendererTexture, anything else yields None. -/
def _casttexonly (doc : Document) (val : PyVal) : Except PyErr PropValue :=
  let parsed := parse_csv_str (pyStrOfVal val)
  if parsed.contains "Texture" then buildTexture doc parsed
  else .ok .pynone

/-- The CAST_FUNCTIONS dispatch table, keyed by parameter type. Every
entry takes the raw value and the object color, as the source calls them
uniformly with both arguments. -/
def CAST_FUNCTIONS : List (String × (Document → PyVal → PropValue → Except PyErr PropValue)) :=
  [("float", fun d v _ => _castfloat d v),
   ("RGB", _castrgb),
   ("string", fun _ v _ => _caststr v),
   ("texonly", fun d v _ => _casttexonly d v)]

/-- The Param namedtuple: parameter name, type tag, default value and
description of one standard material parameter. -/
structure Param where
  name : String
  type : String
  default : PyVal
  desc : String

/-- The STD_MATERIALS_PARAMETERS table. By convention the first parameter
of each material is color typed and is used as the default color in
fallback mechanisms. -/
def STD_MATERIALS_PARAMETERS : List (String × List Param) :=
  [("Glass",
    [⟨"Color", "RGB", .ptuple3 1 1 1, "Transmitted color"⟩,
     ⟨"IOR", "float", .pflt (mkRat 3 2), "Index of refraction"⟩,
     ⟨"Bump", "texonly", .pstr "", "Bump"⟩,
     ⟨"Normal", "texonly", .pstr "", "Normal"⟩]),
   ("Disney",
    [⟨"BaseColor", "RGB", .ptuple3 (mkRat 4 5) (mkRat 4 5) (mkRat 4 5), "Base color"⟩,
     ⟨"Subsurface", "float", .pflt 0, "Subsurface coefficient"⟩,
     ⟨"Metallic", "float", .pflt 0, "Metallic coefficient"⟩,
     ⟨"Specular", "float", .pflt 0, "Specular coefficient"⟩,
     ⟨"SpecularTint", "float", .pflt 0, "Specular tint coefficient"⟩,
     ⟨"Roughness", "float", .pflt 0, "Roughness coefficient"⟩,
     ⟨"Anisotropic", "float", .pflt 0, "Anisotropic coefficient"⟩,
     ⟨"Sheen", "float", .pflt 0, "Sheen coefficient"⟩,
     ⟨"SheenTint", "float", .pflt 0, "Sheen tint coefficient"⟩,
     ⟨"ClearCoat", "float", .pflt 0, "Clear coat coefficient"⟩,
     ⟨"ClearCoatGloss", "float", .pflt 0, "Clear coat gloss coefficient"⟩,
     ⟨"Bump", "texonly", .pstr "", "Bump"⟩,
     ⟨"Normal", "texonly", .pstr "", "Normal"⟩,
     ⟨"Displacement", "texonly", .pstr "", "Displacement"⟩]),
   ("Diffuse",
    [⟨"Color", "RGB", .ptuple3 (mkRat 4 5) (mkRat 4 5) (mkRat 4 5), "Diffuse color"⟩,
     ⟨"Bump", "texonly", .pstr "", "Bump"⟩,
     ⟨"Normal", "texonly", .pstr "", "Normal"⟩]),
   ("Mixed",
    [⟨"Diffuse.Color", "RGB", .ptuple3 (mkRat 4 5) (mkRat 4 5) (mkRat 4 5), "Diffuse color"⟩,
     ⟨"Glass.Color", "RGB", .ptuple3 1 1 1, "Transmitted color"⟩,
     ⟨"Glass.IOR", "float", .pflt (mkRat 3 2), "Index of refraction"⟩,
     ⟨"Transparency", "float", .pflt (mkRat 1 2), "Mix ratio between Glass and Diffuse"⟩,
     ⟨"Bump", "texonly", .pstr "", "Bump"⟩,
     ⟨"Normal", "texonly", .pstr "", "Normal"⟩]),
   ("Carpaint",
    [⟨"BaseColor", "RGB", .ptuple3 (mkRat 4 5) (mkRat 1 5) (mkRat 1 5), "Base color"⟩,
     ⟨"Bump", "texonly", .pstr "", "Bump"⟩,
     ⟨"Normal", "texonly", .pstr "", "Normal"⟩])]

/-- The RenderMaterial object: shader type tag, dynamic attribute
dictionary (holding at least the shader namespace created at
initialization), conventional default color, and the parameter type
record. -/
structure RenderMaterial where
  shadertype : String
  attrs : List (String × PNode)
  default_color : PNode
  partypes : List (String × String)

/-- RenderMaterial initialization: record the shader type, create the
empty shader namespace attribute named by the lowercased type, and set the
conventional default color. -/
def RenderMaterial.mkNew (shadertype : String) : RenderMaterial :=
  ⟨shadertype, [(lowerStr shadertype, .ns [])], .leaf (.cola ⟨mkRat 4 5, mkRat 4 5, mkRat 4 5, 1⟩), []⟩

/-- Walk of setshaderparam: descend the attribute path, creating the
missing intermediate SimpleNamespaces; each creation also records a node
type entry, and sets a bookkeeping shader attribute on the parent holding
the created child name, exactly as the source does. Returns the updated
namespace together with the parameter-type updates made on the way, in
temporal order. Descending through an existing leaf raises AttributeError
(the Python attribute walk would fail there); no embedded path reaches
this. -/
def walkSet : List (String × PNode) → List String → PropValue →
    Except PyErr (List (String × PNode) × List (String × String))
  | _, [], _ => .error .attributeError
  | attrs, [last], value => .ok (alset attrs last (.leaf value), [])
  | attrs, elem :: e2 :: rest, value =>
    match alget attrs elem with
    | some (.ns children) => do
      let r ← walkSet children (e2 :: rest) value
      Except.ok (alset attrs elem (.ns r.1), r.2)
    | some (.leaf _) => .error .attributeError
    | Option.none => do
      let r ← walkSet [] (e2 :: rest) value
      let attrs2 := alset (alset attrs elem (.ns [])) "shader" (.leaf (.str elem))
      Except.ok (alset attrs2 elem (.ns r.1),
        (elem, "node") :: ("shader", "str") :: r.2)

/-- RenderMaterial.setshaderparam: set a possibly dotted shader parameter,
prefixing the path with the lowercased shader type, creating intermediate
namespaces, and record the parameter type of the leaf. -/
def RenderMaterial.setshaderparam (m : RenderMaterial) (name : String)
    (value : PropValue) (paramtype : String) : Except PyErr RenderMaterial := do
  let path := ((m.shadertype :: splitStr '.' name).map lowerStr)
  let r ← walkSet m.attrs path value
  let pts := r.2.foldl (fun d kv => alset d kv.1 kv.2) m.partypes
  Except.ok ⟨m.shadertype, r.1, m.default_color, alset pts (path.getLastD "") paramtype⟩

/-- RenderMaterial.getshaderparam: walk the lowercased dotted path from
the object root; a missing element raises AttributeError. -/
def RenderMaterial.getshaderparam (m : RenderMaterial) (name : String) :
    Except PyErr PNode :=
  (((m.shadertype :: splitStr '.' name).map lowerStr)).foldlM
    PNode.getattr (.ns m.attrs)

/-- RenderMaterial.shadername property: the lowercased shader type. -/
def RenderMaterial.shadername (m : RenderMaterial) : String :=
  lowerStr m.shadertype

/-- RenderMaterial.shader property: the attribute named by the shader
name. -/
def RenderMaterial.shaderAttr (m : RenderMaterial) : Except PyErr PNode :=
  PNode.getattr (.ns m.attrs) m.shadername

/-- RenderMaterial.shaderproperties property: the dictionary of the shader
namespace. -/
def RenderMaterial.shaderproperties (m : RenderMaterial) :
    Except PyErr (List (String × PNode)) := do
  match ← m.shaderAttr with
  | .ns children => Except.ok children
  | .leaf _ => Except.error PyErr.attributeError

/-- RenderMaterial.get_param_type: indexing the parameter type record, a
missing entry raises KeyError. -/
def RenderMaterial.get_param_type (m : RenderMaterial) (p : String) :
    Except PyErr String :=
  match alget m.partypes p with
  | some t => .ok t
  | Option.none => .error .keyError

/-- One entry of the values tuple fed to _build_standard: parameter name,
raw card value (None when absent), parameter default, parameter type, and
object color. -/
abbrev StdVal := String × PyVal × PyVal × String × PropValue

/-- Build a standard material (rdrmaterials _build_standard): cast every
value with the cast function of its type, retrying with the parameter
default when the cast raises TypeError (and only then: any other
exception propagates), set each shader parameter, then set the default
color from the resolved value of the first declared parameter of the
family. -/
def _build_standard (doc : Document) (shadertype : String) (values : List StdVal) :
    Except PyErr RenderMaterial := do
  let res ← values.foldlM (fun res v => do
      let nam := v.1
      let val := v.2.1
      let dft := v.2.2.1
      let typ := v.2.2.2.1
      let objcol := v.2.2.2.2
      let castf ← match alget CAST_FUNCTIONS typ with
        | some f => Except.ok f
        | Option.none => Except.error PyErr.keyError
      let value ← match castf doc val objcol with
        | .error .typeError => castf doc dft objcol
        | other => other
      res.setshaderparam nam value typ)
    (RenderMaterial.mkNew shadertype)
  let params ← match alget STD_MATERIALS_PARAMETERS shadertype with
    | some ps => Except.ok ps
    | Option.none => Except.error PyErr.keyError
  let par ← match params with
    | p :: _ => Except.ok p
    | [] => Except.error PyErr.indexError
  let dc ← res.getshaderparam par.name
  Except.ok ⟨res.shadertype, res.attrs, dc, res.partypes⟩

/-- The passthrough token replacements (PASSTHRU_REPLACED_TOKENS): brace
escaping and placeholder renaming into Python format fields. -/
def PASSTHRU_REPLACED_TOKENS : List (String × String) :=
  [("\x7b", "\x7b\x7b"),
   ("\x7d", "\x7d\x7d"),
   ("%NAME%", "\x7bn\x7d"),
   ("%RED%", "\x7bc.r\x7d"),
   ("%GREEN%", "\x7bc.g\x7d"),
   ("%BLUE%", "\x7bc.b\x7d")]

/-- Convert a passthrough string from material card format to Python
format-string form (rdrmaterials _convert_passthru). -/
def _convert_passthru (passthru : String) : String :=
  PASSTHRU_REPLACED_TOKENS.foldl (fun s kv => s.replace kv.1 kv.2) passthru

/-- Build a passthrough material (rdrmaterials _build_passthrough): a
Passthrough RenderMaterial whose shader namespace carries the converted
joined lines and the renderer name, with the caller default color. -/
def _build_passthrough (lines : List String) (renderer : String)
    (default_color : RGBA) : RenderMaterial :=
  ⟨"Passthrough",
   [("passthrough",
     .ns [("string", .leaf (.str (_convert_passthru (joinSep "\n" lines)))),
          ("renderer", .leaf (.str renderer))])],
   .leaf (.cola default_color),
   [("string", "str"), ("renderer", "str"), ("default_color", "RGBA")]⟩

/-- The comma-joined string of the first three channels used by
_build_fallback (its _color local), exposed for statements about it. -/
def fallback_color_str (color : List Rat) : String :=
  joinSep "," ((color.take 3).map pyStr)

/-- Build a fallback material (rdrmaterials _build_fallback): print the
first three channels and the alpha of the color (a short tuple falls back
to solid gray, the IndexError branch of the source), reparse the joined
channels into an RGB object color, then select the family by alpha: zero
builds Diffuse, one builds Glass, anything else builds Mixed with the
alpha as Transparency; the built values go through _build_standard. -/
def _build_fallback (doc : Document) (color : List Rat) : Except PyErr RenderMaterial := do
  let cstr : String × String :=
    match color.get? 3 with
    | some al => (fallback_color_str color, pyStr al)
    | Option.none => ("0.8, 0.8, 0.8", "0.0")
  let _color := cstr.1
  let _alpha := cstr.2
  let _rgbcolor ← str2rgb _color
  let alpha ← match pyFloat? _alpha with
    | some q => Except.ok q
    | Option.none => Except.error PyErr.valueError
  let sv : String × List StdVal :=
    if alpha = 0 then
      ("Diffuse",
       [("Color", .pstr _color, .pstr _color, "RGB", .col _rgbcolor)])
    else if alpha = 1 then
      ("Glass",
       [("IOR", .pstr "1.5", .pstr "1.5", "float", .col _rgbcolor),
        ("Color", .pstr _color, .pstr _color, "RGB", .col _rgbcolor)])
    else
      ("Mixed",
       [("Diffuse.Color", .pstr _color, .pstr _color, "RGB", .col _rgbcolor),
        ("Glass.IOR", .pstr "1.5", .pstr "1.5", "float", .col _rgbcolor),
        ("Glass.Color", .pstr _color, .pstr _color, "RGB", .col _rgbcolor),
        ("Transparency", .pstr _alpha, .pstr _alpha, "float", .col _rgbcolor)])
  _build_standard doc sv.1 sv.2

/-- Digit character of a decimal digit (helper of pad4). -/
def dch : Nat → Char
  | 0 => '0' | 1 => '1' | 2 => '2' | 3 => '3' | 4 => '4'
  | 5 => '5' | 6 => '6' | 7 => '7' | 8 => '8' | 9 => '9'
  | _ => '?'

/-- Zero-padded minimum-width-4 decimal print of a natural number, the
Python format i:04. Below 10000 these are exactly the four digits; above,
the plain decimal digits. -/
def pad4 (i : Nat) : String :=
  if i < 10000 then
    String.mk [dch (i / 1000), dch (i / 100 % 10), dch (i / 10 % 10), dch (i % 10)]
  else Nat.repr i

/-- One numbered passthrough card key. -/
def pkey (renderer : String) (i : Nat) : String :=
  "Render." ++ renderer ++ "." ++ pad4 i

/-- Material card keys for passthrough rendering (rdrmaterials
passthrough_keys): the keys numbered over Python range(1, 9999), that is
1 to 9998 inclusive. -/
def passthrough_keys (renderer : String) : List String :=
  (List.range' 1 9998).map (pkey renderer)

/-- The intersection of the passthrough key set with the card keys, in
ascending key order: the source intersects the two key sets and sorts the
result; since the generated keys share one prefix and a fixed-width
zero-padded number, their generation order is their ascending string
order, so filtering the generated enumeration by presence in the card
yields exactly the sorted intersection. -/
def commonKeys (mat : MatDict) (renderer : String) : List String :=
  (passthrough_keys renderer).filter (fun k => (alget mat k).isSome)

/-- Assert that an object is a valid Material (rdrmaterials
is_valid_material): derivation from App MaterialObjectPython and presence
of the Material dictionary. -/
def is_valid_material (o : FCObject) : Bool :=
  o.isMaterialObject && o.hasMaterialAttr

/-- Validity of a possibly absent object: None fails the isDerivedFrom
access with AttributeError, which is_valid_material turns into False. -/
def validOpt : Option FCObject → Bool
  | Option.none => false
  | some o => is_valid_material o

/-- Get rendering material from a FreeCAD material (rdrmaterials
get_rendering_material), with a fuel argument bounding the father-chain
recursion: exhausted fuel is CPython RecursionError. In priority order:
validity gate, renderer passthrough, standard material, father material,
legacy Coin-like parameters, hard fallback on the default color. -/
def get_rendering_material (doc : Document) (renderer : String)
    (default_color : RGBA) : Nat → Option FCObject → Except PyErr RenderMaterial
  | 0, _ => .error .recursionError
  | fuel + 1, mobj =>
    match mobj with
    | Option.none => _build_fallback doc [default_color.r, default_color.g,
        default_color.b, default_color.a]
    | some obj =>
      if ¬ is_valid_material obj then
        _build_fallback doc [default_color.r, default_color.g,
          default_color.b, default_color.a]
      else
        let mat := obj.material
        let common := commonKeys mat renderer
        if common.isEmpty then
          let std : Option (Except PyErr RenderMaterial) :=
            match alget mat "Render.Type" with
            | some shadertype =>
              if shadertype = "" then Option.none
              else
                match alget STD_MATERIALS_PARAMETERS shadertype with
                | some params =>
                  some (_build_standard doc shadertype
                    (params.map (fun p =>
                      (p.name,
                       (match alget mat ("Render." ++ shadertype ++ "." ++ p.name) with
                        | some s => PyVal.pstr s
                        | Option.none => PyVal.pnone),
                       p.default, p.type, PropValue.cola default_color))))
                | Option.none => Option.none
            | Option.none => Option.none
          match std with
          | some r => r
          | Option.none =>
            let father : Option FCObject :=
              match alget mat "Father" with
              | some fname =>
                if fname = "" then Option.none
                else (doc.objects.filter is_valid_material).find?
                  (fun m => ((alget m.material "Name").getD "") = fname)
              | Option.none => Option.none
            match father with
            | some f => get_rendering_material doc renderer default_color fuel (some f)
            | Option.none =>
              match alget mat "DiffuseColor" with
              | Option.none => _build_fallback doc [default_color.r, default_color.g,
                  default_color.b, default_color.a]
              | some dstr =>
                match str2rgb dstr with
                | .error .typeError => _build_fallback doc [default_color.r,
                    default_color.g, default_color.b, default_color.a]
                | .error e => .error e
                | .ok dc =>
                  match pyFloat? ((alget mat "Transparency").getD "0") with
                  | Option.none => .error .valueError
                  | some t => _build_fallback doc [dc.r, dc.g, dc.b, ratDivNat t 100]
        else
          let lines := common.map (fun k => (alget mat k).getD "")
          .ok (_build_passthrough lines renderer default_color)

/-- One writer invocation performed while building MaterialValues: the
texture writer, the texture reference writer, or the value writer, with
the property key it was invoked for. This is the pure image of the side
effect order of the callbacks. -/
inductive WEvent where
  | tex (propkey : String)
  | texref (propkey : String)
  | val (propkey : String)
  deriving DecidableEq, Repr

/-- Whether a shader property value is the Python None (skipped by the
MaterialValues loop). -/
def isNoneLeaf : PNode → Bool
  | .leaf .pynone => true
  | _ => false

/-- Whether a shader property value answers hasattr(value, "is_texture"):
only a RendererTexture does. -/
def isTexLeaf : PNode → Bool
  | .leaf (.tex _) => true
  | _ => false

/-- The MaterialValues object: the target object name, the source
material, the computed values dictionary, the texture SDL list, and the
writer invocation trace. -/
structure MaterialValues where
  objname : String
  material : RenderMaterial
  values : List (String × String)
  textures : List String
  trace : List WEvent

/-- The loop of MaterialValues initialization over the shader properties:
skip None values, read the parameter type (KeyError on a missing record),
then either emit the texture and its reference or emit a plain value, and
store the result under the property key. -/
def mvLoop (objname : String) (m : RenderMaterial)
    (wtex : String → String → String → PNode → String × String)
    (wval : String → PNode → String)
    (wtexref : String → String → String → PNode → String) :
    List (String × PNode) →
    List (String × String) × List String × List WEvent →
    Except PyErr (List (String × String) × List String × List WEvent)
  | [], acc => .ok acc
  | (k, node) :: rest, acc =>
    if isNoneLeaf node then mvLoop objname m wtex wval wtexref rest acc
    else do
      let ptype ← m.get_param_type k
      if isTexLeaf node then
        let tn := wtex objname k ptype node
        let v := wtexref tn.1 k ptype node
        mvLoop objname m wtex wval wtexref rest
          (alset acc.1 k v, acc.2.1 ++ [tn.2], acc.2.2 ++ [.tex k, .texref k])
      else
        mvLoop objname m wtex wval wtexref rest
          (alset acc.1 k (wval ptype node), acc.2.1, acc.2.2 ++ [.val k])

/-- MaterialValues initialization (rdrmaterials MaterialValues.__init__,
reached through RenderMaterial.get_material_values): loop over the shader
properties building values and textures with the writer callbacks of the
renderer plugin. -/
def MaterialValues.init (objname : String) (m : RenderMaterial)
    (wtex : String → String → String → PNode → String × String)
    (wval : String → PNode → String)
    (wtexref : String → String → String → PNode → String) :
    Except PyErr MaterialValues := do
  let props ← m.shaderproperties
  let acc ← mvLoop objname m wtex wval wtexref props ([], [], [])
  Except.ok ⟨objname, m, acc.1, acc.2.1, acc.2.2⟩

/-- MaterialValues.shadertype property. -/
def MaterialValues.shadertype (mv : MaterialValues) : String :=
  mv.material.shadertype

/-- MaterialValues.default_color property. -/
def MaterialValues.default_color (mv : MaterialValues) : PNode :=
  mv.material.default_color

end FCRender

namespace FCRender.Povray

open FCRender

/-- Float conversion applied by the POV-Ray fallback to each channel
(Python float() on a runtime value): a float passes through, a numeric
string parses, anything else raises TypeError. -/
def pyFloatOfNode : PNode → Except PyErr Rat
  | .leaf (.flt v) => .ok v
  | .leaf (.str s) =>
    match pyFloat? s with
    | some q => .ok q
    | Option.none => .error .valueError
  | _ => .error .typeError

/-- The defensive channel extraction of _write_material_fallback: read
material.default_color.r, .g and .b, convert them with float() and check
they lie in the unit interval; on AttributeError, ValueError, TypeError or
AssertionError fall back to white. The argument is whatever runtime value
was passed as material: when _write_material hands over an RGBA color,
the default_color attribute access itself raises AttributeError. -/
def _fallback_rgb (material : PNode) : Rat × Rat × Rat :=
  match (do
      let dc ← material.getattr "default_color"
      let red ← (← dc.getattr "r") |> pyFloatOfNode
      let grn ← (← dc.getattr "g") |> pyFloatOfNode
      let blu ← (← dc.getattr "b") |> pyFloatOfNode
      if 0 ≤ red ∧ red ≤ 1 ∧ 0 ≤ grn ∧ grn ≤ 1 ∧ 0 ≤ blu ∧ blu ≤ 1 then
        Except.ok (red, grn, blu)
      else Except.error PyErr.assertionError : Except PyErr (Rat × Rat × Rat)) with
  | .ok t => t
  | .error _ => (1, 1, 1)

/-- Compute the POV-Ray SDL for a fallback material (Povray
_write_material_fallback): a simple diffuse texture with the extracted,
or white, pigment color. -/
def _write_material_fallback (_name : String) (material : PNode) : String :=
  let c := _fallback_rgb material
  "    texture \x7b\n        pigment \x7brgb <" ++ pyStr c.1 ++ ", " ++
    pyStr c.2.1 ++ ", " ++ pyStr c.2.2 ++ ">\x7d\n        finish \x7b\n" ++
    "            diffuse albedo 1\n            \x7d\n        \x7d"

/-- Compute the POV-Ray SDL for a Diffuse material (Povray
_write_material_diffuse): the snippet embeds the computed color value of
the MaterialValues; a missing entry raises KeyError, which the dispatch
in _write_material also catches. -/
def _write_material_diffuse (_name : String) (matval : MaterialValues) :
    Except PyErr String :=
  match alget matval.values "color" with
  | some v => .ok ("    texture \x7b\n        pigment \x7b " ++ v ++
      " \x7d\n        finish \x7b\n            diffuse albedo 1\n" ++
      "            \x7d\n        \x7d")
  | Option.none => .error .keyError

/-- The remaining family generators of the POV-Ray table. In this source
revision they read RenderMaterial-style attributes (material.passthrough,
material.glass, material.disney, material.mixed, material.carpaint) that
the MaterialValues object handed to _write_material does not provide, so
each raises AttributeError when invoked. -/
def _write_material_attr_style (_name : String) (_matval : MaterialValues) :
    Except PyErr String :=
  .error .attributeError

/-- The POV-Ray MATERIALS dispatch table, keyed by shader type. -/
def MATERIALS : List (String × (String → MaterialValues → Except PyErr String)) :=
  [("Passthrough", _write_material_attr_style),
   ("Glass", _write_material_attr_style),
   ("Disney", _write_material_attr_style),
   ("Diffuse", _write_material_diffuse),
   ("Mixed", _write_material_attr_style),
   ("Carpaint", _write_material_attr_style)]

/-- The warning printed to the FreeCAD console when a material is unknown
to the renderer. -/
def unknownWarning (name shadertype : String) : String :=
  "\x27" ++ name ++ "\x27 - Material \x27" ++ shadertype ++
    "\x27 unknown by renderer, using fallback material\n"

/-- Compute the POV-Ray SDL for a material (Povray _write_material):
dispatch on the shader type; on KeyError print a warning and use the
fallback material built from the default color of the material. The
result pairs the console warnings with the SDL text. -/
def _write_material (name : String) (material : MaterialValues) :
    Except PyErr (List String × String) :=
  let attempt : Except PyErr String :=
    match alget MATERIALS material.shadertype with
    | some g => g name material
    | Option.none => .error .keyError
  match attempt with
  | .ok s => .ok ([], s)
  | .error .keyError =>
    .ok ([unknownWarning name material.shadertype],
      _write_material_fallback name material.default_color)
  | .error e => .error e

end FCRender.Povray

namespace FCRender

/-- The writer invocation trace the MaterialValues loop produces for a
property list: one value-writer event per non-None non-texture entry, one
texture plus one texture-reference event per texture entry, in list
order. -/
def visitTrace : List (String × PNode) → List WEvent
  | [] => []
  | kv :: rest =>
    if isNoneLeaf kv.2 then visitTrace rest
    else if isTexLeaf kv.2 then .tex kv.1 :: .texref kv.1 :: visitTrace rest
    else .val kv.1 :: visitTrace rest

/-- The value entries the MaterialValues loop appends for a property
list, in visit order. -/
def visitPairs (objname : String) (m : RenderMaterial)
    (wtex : String → String → String → PNode → String × String)
    (wval : String → PNode → String)
    (wtexref : String → String → String → PNode → String) :
    List (String × PNode) → List (String × String)
  | [] => []
  | kv :: rest =>
    let pt := (alget m.partypes kv.1).getD ""
    if isNoneLeaf kv.2 then visitPairs objname m wtex wval wtexref rest
    else if isTexLeaf kv.2 then
      (kv.1, wtexref (wtex objname kv.1 pt kv.2).1 kv.1 pt kv.2)
        :: visitPairs objname m wtex wval wtexref rest
    else (kv.1, wval pt kv.2) :: visitPairs objname m wtex wval wtexref rest

/-- Modelled from the spec: the visit order asserted by the claim about
MaterialValues construction — every non-null leaf property of the shader
of the material, taken in the declared parameter order of the family
(lowercased dotted names, as the property tree stores them). -/
def spec_claimed_visit (m : RenderMaterial) : List String :=
  match alget STD_MATERIALS_PARAMETERS m.shadertype with
  | some ps => ps.filterMap (fun p =>
      match m.getshaderparam p.name with
      | .ok (.leaf v) =>
        if v = PropValue.pynone then Option.none
        else some (joinSep "." ((splitStr '.' p.name).map lowerStr))
      | _ => Option.none)
  | Option.none => []

/-- The empty active document used by the concrete runs. -/
def doc0 : Document := ⟨[], []⟩

/-- A solid gray default color (alpha one). -/
def grayAlpha1 : RGBA := ⟨mkRat 4 5, mkRat 4 5, mkRat 4 5, 1⟩

/-- A transparent gray default color (alpha zero, so fallbacks from it
build a Diffuse material). -/
def grayClear : RGBA := ⟨mkRat 4 5, mkRat 4 5, mkRat 4 5, 0⟩

/-- Failing input of the legacy-color claim: a valid material card with a
well-formed DiffuseColor and a malformed Transparency. -/
def c1mat : MatDict := [("DiffuseColor", "(0.8,0.8,0.8)"), ("Transparency", "abc")]

/-- The material object carrying c1mat. -/
def c1obj : FCObject := ⟨true, true, c1mat⟩

/-- Failing input of the cast-retry claim: a Glass material whose IOR
raw value is a non-numeric token. -/
def c4mat : MatDict := [("Render.Type", "Glass"), ("Render.Glass.IOR", "abc")]

/-- The material object carrying c4mat. -/
def c4obj : FCObject := ⟨true, true, c4mat⟩

/-- First half of the cyclic father chain: A declares Father B. -/
def cycmatA : MatDict := [("Name", "A"), ("Father", "B")]

/-- Second half of the cyclic father chain: B declares Father A. -/
def cycmatB : MatDict := [("Name", "B"), ("Father", "A")]

/-- The material object carrying cycmatA. -/
def cycobjA : FCObject := ⟨true, true, cycmatA⟩

/-- The material object carrying cycmatB. -/
def cycobjB : FCObject := ⟨true, true, cycmatB⟩

/-- A document holding the two mutually-referring materials. -/
def docAB : Document := ⟨[cycobjA, cycobjB], []⟩

/-- Counterexample input of the passthrough-key claim: a material card
whose only key is the passthrough-shaped key numbered 9999. -/
def mat9999 : MatDict := [("Render.Povray.9999", "foo")]

/-- The material object carrying mat9999. -/
def obj9999 : FCObject := ⟨true, true, mat9999⟩

/-- Witness input of the passthrough claims: a card with one passthrough
line and a recognized standard family declaration. -/
def matP : MatDict :=
  [("Name", "P"), ("Render.Povray.0001", "line one"), ("Render.Type", "Diffuse")]

/-- The material object carrying matP. -/
def objP : FCObject := ⟨true, true, matP⟩

/-- Witness input of the father claim: material A8 whose only content is
a Father reference to B8. -/
def matA8 : MatDict := [("Name", "A8"), ("Father", "B8")]

/-- Witness input of the father claim: material B8 with a standard
Diffuse definition. -/
def matB8 : MatDict :=
  [("Name", "B8"), ("Render.Type", "Diffuse"), ("Render.Diffuse.Color", "(0.1,0.2,0.3)")]

/-- The material object carrying matA8. -/
def objA8 : FCObject := ⟨true, true, matA8⟩

/-- The material object carrying matB8. -/
def objB8 : FCObject := ⟨true, true, matB8⟩

/-- A document holding the father pair. -/
def doc8 : Document := ⟨[objA8, objB8], []⟩

/-- A concrete texture writer used by the MaterialValues runs. -/
def cwtex : String → String → String → PNode → String × String :=
  fun _ _ _ _ => ("t", "sdl")

/-- A concrete value writer used by the MaterialValues runs. -/
def cwval : String → PNode → String := fun _ _ => "v"

/-- A concrete texture-reference writer used by the MaterialValues runs. -/
def cwtexref : String → String → String → PNode → String := fun _ _ _ _ => "r"

/-- The Mixed fallback material built by the resolution pipeline for a
half-transparent gray, the input of the MaterialValues counterexample. -/
def c9mat : RenderMaterial :=
  match _build_fallback doc0 [mkRat 4 5, mkRat 4 5, mkRat 4 5, mkRat 1 2] with
  | .ok m => m
  | .error _ => RenderMaterial.mkNew "X"

/-- A flat Diffuse-style material with one color leaf and one None leaf,
the input of the MaterialValues witness. -/
def c9flat : RenderMaterial :=
  ⟨"Diffuse",
   [("diffuse", .ns [("color", .leaf (.col ⟨1, 0, 0⟩)), ("bump", .leaf .pynone)])],
   .leaf (.col ⟨1, 0, 0⟩),
   [("color", "RGB"), ("bump", "texonly")]⟩

/-- A MaterialValues object whose shader type is unknown to the POV-Ray
table, the input of the backend fallback witnesses. -/
def mvFoo : MaterialValues := ⟨"obj", RenderMaterial.mkNew "Foo", [], [], []⟩

/-!
Lemma toolkit about the passthrough key enumeration. The generated set has
9998 elements, far too many to evaluate inside the kernel, so membership
and intersections are handled through the digit characterization of pad4.
-/

theorem dch_eq_dch_iff {d e : Nat} (hd : d ≤ 9) (he : e ≤ 9) :
    dch d = dch e ↔ d = e := by
  interval_cases d <;> interval_cases e <;> simp [dch]

theorem pad4_inj {i j : Nat} (hi : i < 10000) (hj : j < 10000) :
    pad4 i = pad4 j ↔ i = j := by
  unfold pad4
  rw [if_pos hi, if_pos hj]
  constructor
  · intro h
    have h2 : [dch (i / 1000), dch (i / 100 % 10), dch (i / 10 % 10), dch (i % 10)]
        = [dch (j / 1000), dch (j / 100 % 10), dch (j / 10 % 10), dch (j % 10)] := by
      have := congrArg String.data h
      simpa using this
    simp only [List.cons.injEq, and_true] at h2
    obtain ⟨h3, h4, h5, h6⟩ := h2
    rw [dch_eq_dch_iff (by omega) (by omega)] at h3
    rw [dch_eq_dch_iff (by omega) (by omega)] at h4
    rw [dch_eq_dch_iff (by omega) (by omega)] at h5
    rw [dch_eq_dch_iff (by omega) (by omega)] at h6
    omega
  · intro h
    rw [h]

theorem pkey_povray (i : Nat) : pkey "Povray" i = "Render.Povray." ++ pad4 i := rfl

theorem pkey_povray_len {i : Nat} (hi : i < 10000) :
    (pkey "Povray" i).data.length = 18 := by
  rw [pkey_povray, String.data_append]
  unfold pad4
  rw [if_pos hi]
  simp

theorem ne_pkey_povray {s : String} {i : Nat} (hi : i < 10000)
    (h : s.data.length ≠ 18) : s ≠ pkey "Povray" i := by
  intro he
  exact h (by rw [he, pkey_povray_len hi])

theorem pkey_povray_inj {i j : Nat} (hi : i < 10000) (hj : j < 10000) :
    pkey "Povray" i = pkey "Povray" j ↔ i = j := by
  rw [pkey_povray, pkey_povray]
  constructor
  · intro h
    have : (pad4 i).data = (pad4 j).data := by
      have := congrArg String.data h
      simp only [String.data_append] at this
      exact List.append_cancel_left this
    have hmk : pad4 i = pad4 j := by
      cases hpi : pad4 i with
      | mk di =>
        cases hpj : pad4 j with
        | mk dj =>
          rw [hpi, hpj] at this
          simp only at this
          rw [this]
    exact (pad4_inj hi hj).mp hmk
  · intro h
    rw [h]

theorem mem_passthrough_keys {r k : String} :
    k ∈ passthrough_keys r ↔ ∃ i, 1 ≤ i ∧ i < 9999 ∧ k = pkey r i := by
  unfold passthrough_keys
  rw [List.mem_map]
  constructor
  · rintro ⟨i, hi, rfl⟩
    rw [List.mem_range'_1] at hi
    exact ⟨i, hi.1, by omega, rfl⟩
  · rintro ⟨i, h1, h2, rfl⟩
    exact ⟨i, List.mem_range'_1.mpr ⟨h1, by omega⟩, rfl⟩

theorem commonKeys_eq_nil {mat : MatDict} {r : String}
    (h : ∀ i, 1 ≤ i → i < 9999 → alget mat (pkey r i) = Option.none) :
    commonKeys mat r = [] := by
  apply List.filter_eq_nil_iff.mpr
  intro k hk
  obtain ⟨i, h1, h2, rfl⟩ := mem_passthrough_keys.mp hk
  simp [h i h1 h2]

theorem alget_cons_of_ne {α : Type} {k key : String} {v : α} {t : List (String × α)}
    (h : k ≠ key) : alget ((k, v) :: t) key = alget t key := by
  simp [alget, h]

theorem filter_eq_singleton {α : Type} {l : List α} {p : α → Bool} {a : α}
    (hmem : a ∈ l) (hnd : l.Nodup) (hiff : ∀ x ∈ l, (p x = true ↔ x = a)) :
    l.filter p = [a] := by
  induction l with
  | nil => cases hmem
  | cons b t ih =>
    by_cases hb : b = a
    · subst hb
      have hpb : p b = true := (hiff b (List.mem_cons_self b t)).mpr rfl
      have hnotmem : b ∉ t := (List.nodup_cons.mp hnd).1
      have htnil : t.filter p = [] := by
        apply List.filter_eq_nil_iff.mpr
        intro x hx h
        exact hnotmem (((hiff x (List.mem_cons_of_mem b hx)).mp h) ▸ hx)
      simp [List.filter_cons, hpb, htnil]
    · have hpb : p b = false := by
        cases h : p b with
        | false => rfl
        | true => exact absurd ((hiff b (List.mem_cons_self b t)).mp h) hb
      have hmem2 : a ∈ t := by
        cases List.mem_cons.mp hmem with
        | inl h => exact absurd h.symm hb
        | inr h => exact h
      have := ih hmem2 (List.nodup_cons.mp hnd).2
        (fun x hx => hiff x (List.mem_cons_of_mem b hx))
      simp [List.filter_cons, hpb, this]

theorem commonKeys_eq_singleton {mat : MatDict} {r : String} {j : Nat}
    (h1 : 1 ≤ j) (h2 : j < 9999)
    (hj : (alget mat (pkey r j)).isSome = true)
    (hothers : ∀ i, 1 ≤ i → i < 9999 → i ≠ j → alget mat (pkey r i) = Option.none) :
    commonKeys mat r = [pkey r j] := by
  unfold commonKeys passthrough_keys
  rw [List.filter_map]
  have : List.filter ((fun k => (alget mat k).isSome) ∘ pkey r) (List.range' 1 9998)
      = [j] := by
    apply filter_eq_singleton
    · exact List.mem_range'_1.mpr ⟨h1, by omega⟩
    · exact List.nodup_range' 1 9998
    · intro x hx
      rw [List.mem_range'_1] at hx
      constructor
      · intro hp
        by_contra hne
        have := hothers x hx.1 (by omega) hne
        simp [Function.comp] at hp
        rw [this] at hp
        cases hp
      · intro he
        subst he
        simpa [Function.comp] using hj
  rw [this]
  rfl

end FCRender

namespace FCRender

/-!
General helper lemmas: Except bind reductions, dictionary lemmas, and the
characterization of the MaterialValues loop.
-/

theorem except_ok_bind {e a b : Type} (x : a) (f : a → Except e b) :
    (Except.ok x >>= f) = f x := rfl

theorem except_error_bind {e a b : Type} (err : e) (f : a → Except e b) :
    ((Except.error err : Except e a) >>= f) = Except.error err := rfl

theorem alget_append {α : Type} (l1 l2 : List (String × α)) (k : String) :
    alget (l1 ++ l2) k = match alget l1 k with
      | some v => some v
      | Option.none => alget l2 k := by
  induction l1 with
  | nil => simp [alget]
  | cons kv t ih =>
    by_cases h : kv.1 = k
    · simp [alget, h]
    · simp [alget, h, ih]

theorem alset_append_of_none {α : Type} (l : List (String × α)) (k : String) (v : α)
    (h : alget l k = Option.none) : alset l k v = l ++ [(k, v)] := by
  induction l with
  | nil => simp [alset]
  | cons kv t ih =>
    by_cases hk : kv.1 = k
    · rw [alget, if_pos hk] at h
      cases h
    · rw [alget, if_neg hk] at h
      cases kv
      simp only [alset]
      rw [if_neg hk, ih h]
      simp

theorem notex_of_none {n : PNode} (h : isNoneLeaf n = true) : isTexLeaf n = false := by
  cases n with
  | leaf v => cases v <;> simp_all [isNoneLeaf, isTexLeaf]
  | ns c => simp [isTexLeaf]

theorem mvLoop_spec (objname : String) (m : RenderMaterial)
    (wtex : String → String → String → PNode → String × String)
    (wval : String → PNode → String)
    (wtexref : String → String → String → PNode → String) :
    ∀ (props : List (String × PNode)) (vals : List (String × String))
      (texs : List String) (tr : List WEvent),
    (∀ kv ∈ props, (alget m.partypes kv.1).isSome = true) →
    (∀ kv ∈ props, alget vals kv.1 = Option.none) →
    (props.map Prod.fst).Nodup →
    mvLoop objname m wtex wval wtexref props (vals, texs, tr) =
      .ok (vals ++ visitPairs objname m wtex wval wtexref props,
        texs ++ (props.filter (fun kv => isTexLeaf kv.2)).map
          (fun kv => (wtex objname kv.1 ((alget m.partypes kv.1).getD "") kv.2).2),
        tr ++ visitTrace props) := by
  intro props
  induction props with
  | nil =>
    intro vals texs tr _ _ _
    simp [mvLoop, visitPairs, visitTrace]
  | cons kv rest ih =>
    intro vals texs tr htypes hfresh hnd
    obtain ⟨pt, hpt⟩ := Option.isSome_iff_exists.mp (htypes kv (List.mem_cons_self kv rest))
    have hgetpt : m.get_param_type kv.1 = .ok pt := by
      rw [RenderMaterial.get_param_type, hpt]
    have hptD : (alget m.partypes kv.1).getD "" = pt := by rw [hpt]; rfl
    have hnd2 : ((kv :: rest).map Prod.fst).Nodup := hnd
    rw [List.map_cons, List.nodup_cons] at hnd2
    have hknotin := hnd2.1
    have hndrest := hnd2.2
    have htypesr := fun x hx => htypes x (List.mem_cons_of_mem kv hx)
    have hfreshr := fun x hx => hfresh x (List.mem_cons_of_mem kv hx)
    by_cases hnone : isNoneLeaf kv.2
    · rw [mvLoop, if_pos hnone, ih vals texs tr htypesr hfreshr hndrest]
      simp [visitPairs, visitTrace, List.filter_cons, hnone, notex_of_none hnone]
    · have hfreshk : alget vals kv.1 = Option.none := hfresh kv (List.mem_cons_self kv rest)
      have hne : ∀ x ∈ rest, x.1 ≠ kv.1 := by
        intro x hx hxe
        exact hknotin (hxe ▸ List.mem_map_of_mem Prod.fst hx)
      by_cases htex : isTexLeaf kv.2
      · rw [mvLoop, if_neg hnone]
        simp only [except_ok_bind, hgetpt, htex, if_pos]
        rw [alset_append_of_none vals kv.1 _ hfreshk]
        rw [ih (vals ++ [(kv.1, wtexref (wtex objname kv.1 pt kv.2).1 kv.1 pt kv.2)])
          (texs ++ [(wtex objname kv.1 pt kv.2).2])
          (tr ++ [WEvent.tex kv.1, WEvent.texref kv.1])
          htypesr
          (fun x hx => by
            rw [alget_append, hfreshr x hx]
            simp [alget, Ne.symm (hne x hx)]) hndrest]
        simp [visitPairs, visitTrace, List.filter_cons, hnone, htex, hptD]
      · rw [mvLoop, if_neg hnone]
        simp only [except_ok_bind, hgetpt, htex, if_neg, Bool.false_eq_true,
          not_false_eq_true]
        rw [alset_append_of_none vals kv.1 _ hfreshk]
        rw [ih (vals ++ [(kv.1, wval pt kv.2)]) texs (tr ++ [WEvent.val kv.1])
          htypesr
          (fun x hx => by
            rw [alget_append, hfreshr x hx]
            simp [alget, Ne.symm (hne x hx)]) hndrest]
        simp [visitPairs, visitTrace, List.filter_cons, hnone, htex, hptD]

theorem visitPairs_keys (objname : String) (m : RenderMaterial)
    (wtex : String → String → String → PNode → String × String)
    (wval : String → PNode → String)
    (wtexref : String → String → String → PNode → String) :
    ∀ props : List (String × PNode),
    (visitPairs objname m wtex wval wtexref props).map Prod.fst
      = (props.filter (fun kv => !(isNoneLeaf kv.2))).map Prod.fst := by
  intro props
  induction props with
  | nil => simp [visitPairs]
  | cons kv rest ih =>
    by_cases hnone : isNoneLeaf kv.2
    · simp [visitPairs, hnone, List.filter_cons, ih]
    · by_cases htex : isTexLeaf kv.2
      · simp [visitPairs, hnone, htex, List.filter_cons, ih]
      · simp [visitPairs, hnone, htex, List.filter_cons, ih]

end FCRender

namespace FCRender

/-!
Cast lemmas and characterizations of the standard builder on the shapes
the fallback constructor produces.
-/

theorem castfloat_pstr (doc : Document) (s : String) (q : Rat)
    (hs : parse_csv_str s = [s]) (hq : pyFloat? s = some q) :
    _castfloat doc (.pstr s) = .ok (.flt q) := by
  have hT : s ≠ "Texture" := by
    intro h
    rw [h, show pyFloat? "Texture" = Option.none from by decide] at hq
    simp at hq
  have hE : s ≠ "" := by
    intro h
    rw [h, show pyFloat? "" = Option.none from by decide] at hq
    simp at hq
  unfold _castfloat
  simp only [pyStrOfVal, hs, List.contains_cons, List.contains_nil,
    Bool.or_false, beq_eq_false_iff_ne, ne_eq]
  rw [if_neg (by simp [Ne.symm hT])]
  rw [if_neg hE]
  rw [hq]

theorem castrgb_pstr (doc : Document) (s : String) (c : RGB) (oc : PropValue)
    (hs : parse_csv_str s = [s]) (hc : str2rgb s = .ok c) :
    _castrgb doc (.pstr s) oc = .ok (.col c) := by
  have hO : s ≠ "Object" := by
    intro h
    rw [h, show str2rgb "Object" = .error .valueError from by decide] at hc
    simp at hc
  have hT : s ≠ "Texture" := by
    intro h
    rw [h, show str2rgb "Texture" = .error .valueError from by decide] at hc
    simp at hc
  unfold _castrgb
  simp only [pyStrOfVal, hs]
  rw [if_neg (by simp [Ne.symm hO]), if_neg (by simp [Ne.symm hT])]
  rw [hc]
  rfl

theorem build_standard_diffuse1 (doc : Document) (S : String) (c : RGB)
    (hc : _castrgb doc (.pstr S) (.col c) = .ok (.col c)) :
    _build_standard doc "Diffuse" [("Color", .pstr S, .pstr S, "RGB", .col c)] =
      .ok ⟨"Diffuse", [("diffuse", .ns [("color", .leaf (.col c))])],
        .leaf (.col c), [("color", "RGB")]⟩ := by
  unfold _build_standard
  simp [List.foldlM, alget, CAST_FUNCTIONS, hc, except_ok_bind]
  rfl

theorem build_standard_glass2 (doc : Document) (S : String) (c : RGB)
    (hc : _castrgb doc (.pstr S) (.col c) = .ok (.col c)) :
    _build_standard doc "Glass"
      [("IOR", .pstr "1.5", .pstr "1.5", "float", .col c),
       ("Color", .pstr S, .pstr S, "RGB", .col c)] =
      .ok ⟨"Glass", [("glass", .ns [("ior", .leaf (.flt (mkRat 3 2))),
          ("color", .leaf (.col c))])],
        .leaf (.col c), [("ior", "float"), ("color", "RGB")]⟩ := by
  unfold _build_standard
  simp [List.foldlM, alget, CAST_FUNCTIONS, hc, except_ok_bind]
  rfl

theorem build_standard_mixed4 (doc : Document) (S AS : String) (c : RGB) (a : Rat)
    (hc : _castrgb doc (.pstr S) (.col c) = .ok (.col c))
    (ha : _castfloat doc (.pstr AS) = .ok (.flt a)) :
    _build_standard doc "Mixed"
      [("Diffuse.Color", .pstr S, .pstr S, "RGB", .col c),
       ("Glass.IOR", .pstr "1.5", .pstr "1.5", "float", .col c),
       ("Glass.Color", .pstr S, .pstr S, "RGB", .col c),
       ("Transparency", .pstr AS, .pstr AS, "float", .col c)] =
      .ok ⟨"Mixed",
        [("mixed", .ns
          [("diffuse", .ns [("color", .leaf (.col c))]),
           ("shader", .leaf (.str "glass")),
           ("glass", .ns [("ior", .leaf (.flt (mkRat 3 2))), ("color", .leaf (.col c))]),
           ("transparency", .leaf (.flt a))])],
        .leaf (.col c),
        [("diffuse", "node"), ("shader", "str"), ("color", "RGB"),
         ("glass", "node"), ("ior", "float"), ("transparency", "float")]⟩ := by
  unfold _build_standard
  simp [List.foldlM, alget, CAST_FUNCTIONS, hc, ha, except_ok_bind]
  rfl

/-!
Resolution-step characterizations used by several claims.
-/

theorem resolve_standard_of (doc : Document) (renderer : String) (dc : RGBA) (k : Nat)
    (B : FCObject) (fam : String) (ps : List Param)
    (hv : is_valid_material B = true)
    (hcB : commonKeys B.material renderer = [])
    (htB : alget B.material "Render.Type" = some fam)
    (hfam : fam ≠ "")
    (hps : alget STD_MATERIALS_PARAMETERS fam = some ps) :
    get_rendering_material doc renderer dc (k + 1) (some B) =
      _build_standard doc fam (ps.map (fun p =>
        (p.name,
         (match alget B.material ("Render." ++ fam ++ "." ++ p.name) with
          | some s => PyVal.pstr s
          | Option.none => PyVal.pnone),
         p.default, p.type, PropValue.cola dc))) := by
  rw [get_rendering_material]
  rw [if_neg (by simp [hv])]
  simp only [hcB, htB, hps, List.isEmpty_nil, if_neg hfam]
  simp

/-!
Passthrough-scan results for the concrete materials of the claims.
-/

theorem scan_c1 : commonKeys c1mat "Povray" = [] := by
  apply commonKeys_eq_nil
  intro i h1 h2
  have hne1 : "DiffuseColor" ≠ pkey "Povray" i := ne_pkey_povray (by omega) (by decide)
  have hne2 : "Transparency" ≠ pkey "Povray" i := ne_pkey_povray (by omega) (by decide)
  simp [c1mat, alget, hne1, hne2]

theorem scan_c4 : commonKeys c4mat "Povray" = [] := by
  apply commonKeys_eq_nil
  intro i h1 h2
  have hne1 : "Render.Type" ≠ pkey "Povray" i := ne_pkey_povray (by omega) (by decide)
  have hne2 : "Render.Glass.IOR" ≠ pkey "Povray" i := ne_pkey_povray (by omega) (by decide)
  simp [c4mat, alget, hne1, hne2]

theorem scan_cycA : commonKeys cycmatA "Povray" = [] := by
  apply commonKeys_eq_nil
  intro i h1 h2
  have hne1 : "Name" ≠ pkey "Povray" i := ne_pkey_povray (by omega) (by decide)
  have hne2 : "Father" ≠ pkey "Povray" i := ne_pkey_povray (by omega) (by decide)
  simp [cycmatA, alget, hne1, hne2]

theorem scan_cycB : commonKeys cycmatB "Povray" = [] := by
  apply commonKeys_eq_nil
  intro i h1 h2
  have hne1 : "Name" ≠ pkey "Povray" i := ne_pkey_povray (by omega) (by decide)
  have hne2 : "Father" ≠ pkey "Povray" i := ne_pkey_povray (by omega) (by decide)
  simp [cycmatB, alget, hne1, hne2]

theorem scan_9999 : commonKeys mat9999 "Povray" = [] := by
  apply commonKeys_eq_nil
  intro i h1 h2
  have hne1 : "Render.Povray.9999" ≠ pkey "Povray" i := by
    rw [show "Render.Povray.9999" = pkey "Povray" 9999 from by decide]
    intro h
    exact absurd ((pkey_povray_inj (by omega) (by omega)).mp h) (by omega)
  simp [mat9999, alget, hne1]

theorem scan_P : commonKeys matP "Povray" = ["Render.Povray.0001"] := by
  have h1 : pkey "Povray" 1 = "Render.Povray.0001" := by decide
  rw [show ["Render.Povray.0001"] = [pkey "Povray" 1] from by rw [h1]]
  apply commonKeys_eq_singleton (by omega) (by omega)
  · rw [h1]
    decide
  · intro i hi1 hi2 hne
    have hnn : "Name" ≠ pkey "Povray" i := ne_pkey_povray (by omega) (by decide)
    have hnt : "Render.Type" ≠ pkey "Povray" i := ne_pkey_povray (by omega) (by decide)
    have hnp : "Render.Povray.0001" ≠ pkey "Povray" i := by
      rw [← h1]
      intro h
      exact hne (((pkey_povray_inj (by omega) (by omega)).mp h).symm)
    simp [matP, alget, hnn, hnt, hnp]

theorem scan_A8 : commonKeys matA8 "Povray" = [] := by
  apply commonKeys_eq_nil
  intro i h1 h2
  have hne1 : "Name" ≠ pkey "Povray" i := ne_pkey_povray (by omega) (by decide)
  have hne2 : "Father" ≠ pkey "Povray" i := ne_pkey_povray (by omega) (by decide)
  simp [matA8, alget, hne1, hne2]

theorem scan_B8 : commonKeys matB8 "Povray" = [] := by
  apply commonKeys_eq_nil
  intro i h1 h2
  have hne1 : "Name" ≠ pkey "Povray" i := ne_pkey_povray (by omega) (by decide)
  have hne2 : "Render.Type" ≠ pkey "Povray" i := ne_pkey_povray (by omega) (by decide)
  have hne3 : "Render.Diffuse.Color" ≠ pkey "Povray" i :=
    ne_pkey_povray (by omega) (by decide)
  simp [matB8, alget, hne1, hne2, hne3]

end FCRender

namespace FCRender

/-- C1: the claim states that get_rendering_material is total and never
raises for any material, renderer and RGBA default color. The code
violates this: on a valid material card whose legacy DiffuseColor parses
but whose Transparency is a non numeric token, the float conversion of
Transparency raises ValueError, which no handler catches (only KeyError
and TypeError are), so the error propagates to the caller instead of a
fallback material being returned. -/
theorem c1_resolution_raises_on_malformed_transparency :
    get_rendering_material doc0 "Povray" grayAlpha1 10 (some c1obj)
      = .error .valueError := by
  rw [get_rendering_material]
  rw [if_neg (by decide)]
  simp only [c1obj, scan_c1]
  rfl

/-- C2: the claim states that a cyclic father chain (A names B, B names
A) terminates with a fallback material. The code has no cycle guard: for
every recursion budget the resolution of either material consumes the
whole budget and ends in RecursionError, never in a material. -/
theorem c2_cyclic_father_chain_recursion_error :
    ∀ fuel, get_rendering_material docAB "Povray" grayAlpha1 fuel (some cycobjA)
        = .error .recursionError
      ∧ get_rendering_material docAB "Povray" grayAlpha1 fuel (some cycobjB)
        = .error .recursionError := by
  intro fuel
  have hA : ∀ n, get_rendering_material docAB "Povray" grayAlpha1 (n + 1) (some cycobjA)
      = get_rendering_material docAB "Povray" grayAlpha1 n (some cycobjB) := by
    intro n
    rw [get_rendering_material]
    rw [if_neg (by decide)]
    simp only [cycobjA, scan_cycA]
    rfl
  have hB : ∀ n, get_rendering_material docAB "Povray" grayAlpha1 (n + 1) (some cycobjB)
      = get_rendering_material docAB "Povray" grayAlpha1 n (some cycobjA) := by
    intro n
    rw [get_rendering_material]
    rw [if_neg (by decide)]
    simp only [cycobjB, scan_cycB]
    rfl
  induction fuel with
  | zero => exact ⟨rfl, rfl⟩
  | succ n ih => exact ⟨(hA n).trans ih.2, (hB n).trans ih.1⟩

/-- C3 counterexample: the claim says the passthrough scan recognizes the
numbered keys 0001 through 9999. The generated key set comes from Python
range(1, 9999), which stops at 9998: the key numbered 9999 is not a member
of the key set, and a valid material card carrying exactly that key does
not resolve to a Passthrough material (it falls through to the Diffuse
fallback of the transparent-gray default color). -/
theorem c3_key9999_counterexample :
    "Render.Povray.9999" ∉ passthrough_keys "Povray"
    ∧ (alget mat9999 "Render.Povray.9999").isSome = true
    ∧ (get_rendering_material doc0 "Povray" grayClear 5 (some obj9999)).map
        RenderMaterial.shadertype = .ok "Diffuse" := by
  refine ⟨?_, by decide, ?_⟩
  · intro h
    obtain ⟨i, h1, h2, he⟩ := mem_passthrough_keys.mp h
    rw [show "Render.Povray.9999" = pkey "Povray" 9999 from by decide] at he
    exact absurd ((pkey_povray_inj (by omega) (by omega)).mp he.symm) (by omega)
  · rw [get_rendering_material]
    rw [if_neg (by decide)]
    simp only [obj9999, scan_9999]
    rfl

/-- C3 amended: the passthrough scan recognizes exactly the per-backend
numbered keys 0001 through 9998 (Python range(1, 9999)); whenever at least
one such key is present in the key space of a valid material, resolution
returns the Passthrough-family material built from the matched lines in
ascending key order (the enumeration order of the key set, which is its
ascending string order). -/
theorem c3_passthrough_keys_amended (doc : Document) (renderer : String) (dc : RGBA)
    (fuel : Nat) (obj : FCObject)
    (hv : is_valid_material obj = true)
    (hc : commonKeys obj.material renderer ≠ []) :
    (∀ k, k ∈ passthrough_keys renderer
      ↔ ∃ i, 1 ≤ i ∧ i ≤ 9998 ∧ k = pkey renderer i)
    ∧ get_rendering_material doc renderer dc (fuel + 1) (some obj) =
        .ok (_build_passthrough ((commonKeys obj.material renderer).map
          (fun k => (alget obj.material k).getD "")) renderer dc)
    ∧ (_build_passthrough ((commonKeys obj.material renderer).map
        (fun k => (alget obj.material k).getD "")) renderer dc).shadertype
        = "Passthrough" := by
  refine ⟨?_, ?_, rfl⟩
  · intro k
    rw [mem_passthrough_keys]
    constructor
    · rintro ⟨i, h1, h2, rfl⟩
      exact ⟨i, h1, by omega, rfl⟩
    · rintro ⟨i, h1, h2, rfl⟩
      exact ⟨i, h1, by omega, rfl⟩
  · rw [get_rendering_material]
    rw [if_neg (by simp [hv])]
    cases hck : commonKeys obj.material renderer with
    | nil => exact absurd hck hc
    | cons k tl =>
      simp only [hck]
      rfl

/-- C3 amended witness: a valid material with the single passthrough line
0001 resolves to the Passthrough material carrying that line. -/
theorem c3_passthrough_keys_amended_witness :
    (is_valid_material objP = true ∧ commonKeys objP.material "Povray" ≠ [])
    ∧ ("Render.Povray.0001" ∈ passthrough_keys "Povray"
        ↔ ∃ i, 1 ≤ i ∧ i ≤ 9998 ∧ "Render.Povray.0001" = pkey "Povray" i)
    ∧ get_rendering_material doc0 "Povray" grayClear 5 (some objP) =
        .ok (_build_passthrough ((commonKeys objP.material "Povray").map
          (fun k => (alget objP.material k).getD "")) "Povray" grayClear) := by
  have hc : commonKeys objP.material "Povray" ≠ [] := by
    show commonKeys matP "Povray" ≠ []
    rw [scan_P]
    simp
  have hmain := c3_passthrough_keys_amended doc0 "Povray" grayClear 4 objP
    (by decide) hc
  exact ⟨⟨by decide, hc⟩, hmain.1 "Render.Povray.0001", hmain.2.1⟩

/-- C4: the claim states that a cast failing on malformed input (wrong
token count or non numeric token) is retried with the parameter default
and never propagates. The retry handler catches only TypeError, while a
non numeric float token makes float() raise ValueError: on a Glass
material whose IOR value is the token abc, resolution propagates
ValueError to the caller instead of retrying with the default 1.5. -/
theorem c4_nonnumeric_cast_failure_propagates :
    get_rendering_material doc0 "Povray" grayAlpha1 10 (some c4obj)
      = .error .valueError := by
  rw [get_rendering_material]
  rw [if_neg (by decide)]
  simp only [c4obj, scan_c4]
  rfl

end FCRender

namespace FCRender

/-- C5: for every material whose shader type is not a key of the POV-Ray
MATERIALS dispatch table, _write_material does not raise: it emits the
unknown-material warning on the console and returns the output of the
fallback generator, so generation still succeeds. -/
theorem c5_unknown_shadertype_uses_fallback (name : String) (mv : MaterialValues)
    (h : alget Povray.MATERIALS (MaterialValues.shadertype mv) = Option.none) :
    Povray._write_material name mv =
      .ok ([Povray.unknownWarning name (MaterialValues.shadertype mv)],
        Povray._write_material_fallback name (MaterialValues.default_color mv)) := by
  unfold Povray._write_material
  rw [h]

/-- C5 witness: a MaterialValues with shader type Foo is unknown to the
table and is written through the warning-and-fallback path. -/
theorem c5_unknown_shadertype_uses_fallback_witness :
    alget Povray.MATERIALS (MaterialValues.shadertype mvFoo) = Option.none
    ∧ Povray._write_material "obj" mvFoo =
      .ok ([Povray.unknownWarning "obj" (MaterialValues.shadertype mvFoo)],
        Povray._write_material_fallback "obj" (MaterialValues.default_color mvFoo)) :=
  ⟨rfl, c5_unknown_shadertype_uses_fallback "obj" mvFoo rfl⟩

/-- The defensive branch of the POV-Ray fallback always fires on a plain
runtime value: no leaf value carries a default_color attribute, so the
channel extraction raises AttributeError and white is selected. -/
theorem fallback_rgb_leaf_white (v : PropValue) :
    Povray._fallback_rgb (.leaf v) = (1, 1, 1) := by
  cases v <;> rfl

/-- C10: when _write_material falls back on an unknown shader type, it
passes the default color value of the material where the fallback
generator expects a material object; the default_color attribute access on
that value raises AttributeError, the defensive branch selects white, and
the produced snippet carries the pigment rgb <1, 1, 1> regardless of the
actual default color. -/
theorem c10_fallback_white_pigment (name : String) (mv : MaterialValues)
    (v : PropValue)
    (h : alget Povray.MATERIALS (MaterialValues.shadertype mv) = Option.none)
    (hdc : MaterialValues.default_color mv = .leaf v) :
    Povray._write_material name mv =
      .ok ([Povray.unknownWarning name (MaterialValues.shadertype mv)],
        "    texture \x7b\n        pigment \x7brgb <1, 1, 1>\x7d\n        finish \x7b\n            diffuse albedo 1\n            \x7d\n        \x7d")
    ∧ ("rgb <1, 1, 1>").data <:+:
        ("    texture \x7b\n        pigment \x7brgb <1, 1, 1>\x7d\n        finish \x7b\n            diffuse albedo 1\n            \x7d\n        \x7d").data := by
  refine ⟨?_, by decide⟩
  unfold Povray._write_material
  rw [h]
  rw [hdc]
  unfold Povray._write_material_fallback
  rw [fallback_rgb_leaf_white]
  rfl

/-- C10 witness: the Foo material with the conventional gray default
color is written with the white fallback pigment. -/
theorem c10_fallback_white_pigment_witness :
    (alget Povray.MATERIALS (MaterialValues.shadertype mvFoo) = Option.none
      ∧ MaterialValues.default_color mvFoo
        = .leaf (.cola ⟨mkRat 4 5, mkRat 4 5, mkRat 4 5, 1⟩))
    ∧ Povray._write_material "obj" mvFoo =
      .ok ([Povray.unknownWarning "obj" (MaterialValues.shadertype mvFoo)],
        "    texture \x7b\n        pigment \x7brgb <1, 1, 1>\x7d\n        finish \x7b\n            diffuse albedo 1\n            \x7d\n        \x7d") :=
  ⟨⟨rfl, rfl⟩,
   (c10_fallback_white_pigment "obj" mvFoo
     (.cola ⟨mkRat 4 5, mkRat 4 5, mkRat 4 5, 1⟩) rfl rfl).1⟩

/-- C6: fallback-material construction selects the family by the alpha
channel of the color: alpha zero builds a pure Diffuse material, alpha one
builds a Glass material, and any other alpha builds a Mixed material whose
Transparency parameter is exactly that alpha. Stated for every color whose
printed channels reparse to themselves as single CSV fields, which holds of
every decimal channel value (Python floats always reprint and reparse
exactly). -/
theorem c6_fallback_family_by_alpha (doc : Document) (r g b a : Rat)
    (hround : pyFloat? (pyStr a) = some a)
    (hsA : parse_csv_str (pyStr a) = [pyStr a])
    (hcol : str2rgb (fallback_color_str [r, g, b, a]) = .ok ⟨r, g, b⟩)
    (hsC : parse_csv_str (fallback_color_str [r, g, b, a])
      = [fallback_color_str [r, g, b, a]]) :
    (a = 0 → (_build_fallback doc [r, g, b, a]).map RenderMaterial.shadertype
      = .ok "Diffuse")
    ∧ (a = 1 → (_build_fallback doc [r, g, b, a]).map RenderMaterial.shadertype
      = .ok "Glass")
    ∧ (a ≠ 0 → a ≠ 1 →
      (_build_fallback doc [r, g, b, a]).map RenderMaterial.shadertype = .ok "Mixed"
      ∧ (_build_fallback doc [r, g, b, a]).bind
          (fun m => m.getshaderparam "Transparency") = .ok (.leaf (.flt a))) := by
  have hc := castrgb_pstr doc (fallback_color_str [r, g, b, a]) ⟨r, g, b⟩
    (.col ⟨r, g, b⟩) hsC hcol
  have ha := castfloat_pstr doc (pyStr a) a hsA hround
  refine ⟨fun h0 => ?_, fun h1 => ?_, fun h0 h1 => ?_⟩
  · unfold _build_fallback
    simp only [List.get?, hcol, hround, except_ok_bind, if_pos h0]
    rw [build_standard_diffuse1 doc _ _ hc]
    rfl
  · have h0 : ¬ a = 0 := by
      rw [h1]
      norm_num
    unfold _build_fallback
    simp only [List.get?, hcol, hround, except_ok_bind]
    rw [if_neg h0, if_pos h1]
    rw [build_standard_glass2 doc _ _ hc]
    rfl
  · unfold _build_fallback
    simp only [List.get?, hcol, hround, except_ok_bind]
    rw [if_neg h0, if_neg h1]
    rw [build_standard_mixed4 doc _ (pyStr a) _ a hc ha]
    exact ⟨rfl, rfl⟩

/-- C6 witness: a half-transparent gray builds the Mixed material with
Transparency one half. -/
theorem c6_fallback_family_by_alpha_witness :
    (pyFloat? (pyStr (mkRat 1 2)) = some (mkRat 1 2)
      ∧ str2rgb (fallback_color_str [mkRat 4 5, mkRat 4 5, mkRat 4 5, mkRat 1 2])
        = .ok ⟨mkRat 4 5, mkRat 4 5, mkRat 4 5⟩)
    ∧ ((_build_fallback doc0 [mkRat 4 5, mkRat 4 5, mkRat 4 5, mkRat 1 2]).map
        RenderMaterial.shadertype = .ok "Mixed"
      ∧ (_build_fallback doc0 [mkRat 4 5, mkRat 4 5, mkRat 4 5, mkRat 1 2]).bind
          (fun m => m.getshaderparam "Transparency")
        = .ok (.leaf (.flt (mkRat 1 2)))) :=
  ⟨⟨by decide, by decide⟩,
   (c6_fallback_family_by_alpha doc0 (mkRat 4 5) (mkRat 4 5) (mkRat 4 5) (mkRat 1 2)
     (by decide) (by decide) (by decide) (by decide)).2.2
     (by decide) (by decide)⟩

/-- C7: a valid material carrying both at least one passthrough key for
the renderer and a recognized standard-family declaration resolves to the
Passthrough family; the standard block is ignored. -/
theorem c7_passthrough_priority (doc : Document) (renderer : String) (dc : RGBA)
    (fuel : Nat) (obj : FCObject) (t : String)
    (hv : is_valid_material obj = true)
    (hc : commonKeys obj.material renderer ≠ [])
    (_ht : alget obj.material "Render.Type" = some t)
    (_hstd : (alget STD_MATERIALS_PARAMETERS t).isSome = true) :
    (get_rendering_material doc renderer dc (fuel + 1) (some obj)).map
      RenderMaterial.shadertype = .ok "Passthrough" := by
  rw [get_rendering_material]
  rw [if_neg (by simp [hv])]
  cases hck : commonKeys obj.material renderer with
  | nil => exact absurd hck hc
  | cons k tl =>
    simp only [hck]
    rfl

/-- C7 witness: the material with the 0001 passthrough line and the valid
Diffuse declaration resolves to Passthrough. -/
theorem c7_passthrough_priority_witness :
    (is_valid_material objP = true
      ∧ commonKeys objP.material "Povray" ≠ []
      ∧ alget objP.material "Render.Type" = some "Diffuse"
      ∧ (alget STD_MATERIALS_PARAMETERS "Diffuse").isSome = true)
    ∧ (get_rendering_material doc0 "Povray" grayClear 5 (some objP)).map
        RenderMaterial.shadertype = .ok "Passthrough" := by
  have hc : commonKeys objP.material "Povray" ≠ [] := by
    show commonKeys matP "Povray" ≠ []
    rw [scan_P]
    simp
  exact ⟨⟨by decide, hc, rfl, rfl⟩,
    c7_passthrough_priority doc0 "Povray" grayClear 4 objP "Diffuse"
      (by decide) hc rfl rfl⟩

/-- C8: a material whose only resolution-relevant content is a nonempty
Father reference to a valid material B present in the document with a
recognized standard-family declaration resolves exactly as B does,
whatever the remaining recursion budgets are. -/
theorem c8_father_resolution_equivalence (doc : Document) (renderer : String)
    (dc : RGBA) (A B : FCObject) (fname fam : String) (ps : List Param)
    (hvA : is_valid_material A = true)
    (hcA : commonKeys A.material renderer = [])
    (htA : alget A.material "Render.Type" = Option.none)
    (hfA : alget A.material "Father" = some fname)
    (hfne : fname ≠ "")
    (hfind : (doc.objects.filter is_valid_material).find?
      (fun m => ((alget m.material "Name").getD "") = fname) = some B)
    (hvB : is_valid_material B = true)
    (hcB : commonKeys B.material renderer = [])
    (htB : alget B.material "Render.Type" = some fam)
    (hfam : fam ≠ "")
    (hps : alget STD_MATERIALS_PARAMETERS fam = some ps) :
    ∀ n m, get_rendering_material doc renderer dc (n + 2) (some A) =
      get_rendering_material doc renderer dc (m + 1) (some B) := by
  have hstep : ∀ n, get_rendering_material doc renderer dc (n + 2) (some A) =
      get_rendering_material doc renderer dc (n + 1) (some B) := by
    intro n
    rw [get_rendering_material]
    rw [if_neg (by simp [hvA])]
    simp only [hcA, htA, hfA, List.isEmpty_nil, if_neg hfne, hfind]
    simp
  intro n m
  rw [hstep n,
    resolve_standard_of doc renderer dc n B fam ps hvB hcB htB hfam hps,
    resolve_standard_of doc renderer dc m B fam ps hvB hcB htB hfam hps]

/-- C8 witness: material A8 with Father B8 resolves exactly as the
standard Diffuse material B8 does, at distinct recursion budgets. -/
theorem c8_father_resolution_equivalence_witness :
    (is_valid_material objA8 = true
      ∧ alget objA8.material "Father" = some "B8"
      ∧ alget objB8.material "Render.Type" = some "Diffuse")
    ∧ get_rendering_material doc8 "Povray" grayAlpha1 5 (some objA8) =
      get_rendering_material doc8 "Povray" grayAlpha1 7 (some objB8) :=
  ⟨⟨by decide, rfl, rfl⟩,
   c8_father_resolution_equivalence doc8 "Povray" grayAlpha1 objA8 objB8 "B8"
     "Diffuse" ((STD_MATERIALS_PARAMETERS.map Prod.snd).getD 2 [])
     (by decide) scan_A8 rfl rfl (by decide) rfl (by decide) scan_B8 rfl
     (by decide) rfl 3 6⟩

end FCRender

namespace FCRender

/-- C9 counterexample: the claim says MaterialValues construction visits
every non-null leaf property of the shader in the declared parameter
order of the family. On the Mixed fallback material built by the
pipeline, the loop instead iterates the top level attributes of the shader
namespace: the nested color and IOR leaves are never visited individually,
the whole diffuse and glass namespace nodes are handed to the value
writer, and the bookkeeping shader attribute, which is not a declared
parameter, is visited as well. -/
theorem c9_mixed_visit_counterexample :
    (MaterialValues.init "o" c9mat cwtex cwval cwtexref).map
      (fun mv => mv.values.map Prod.fst)
      = .ok ["diffuse", "shader", "glass", "transparency"]
    ∧ spec_claimed_visit c9mat
      = ["diffuse.color", "glass.color", "glass.ior", "transparency"]
    ∧ (MaterialValues.init "o" c9mat cwtex cwval cwtexref).map
      (fun mv => mv.values.map Prod.fst)
      ≠ .ok (spec_claimed_visit c9mat)
    ∧ (MaterialValues.init "o" c9mat cwtex cwval cwtexref).map
      (fun mv => mv.trace)
      = .ok [.val "diffuse", .val "shader", .val "glass", .val "transparency"] :=
  ⟨by decide, by decide, by decide, by decide⟩

/-- C9 amended: MaterialValues construction visits every non-None top
level property of the shader namespace exactly once, in namespace
insertion order (which is the declared parameter order for families
without compound parameter names), invoking the texture writer and the
texture-reference writer once each for texture values and the value
writer once for every other non-None value (nested namespace nodes of the
Mixed family are passed whole), and records one entry per visited
property. -/
theorem c9_visit_amended (objname : String) (m : RenderMaterial)
    (wtex : String → String → String → PNode → String × String)
    (wval : String → PNode → String)
    (wtexref : String → String → String → PNode → String)
    (props : List (String × PNode))
    (hprops : m.shaderproperties = .ok props)
    (htypes : ∀ kv ∈ props, (alget m.partypes kv.1).isSome = true)
    (hnd : (props.map Prod.fst).Nodup) :
    ∃ mv, MaterialValues.init objname m wtex wval wtexref = .ok mv
      ∧ mv.trace = visitTrace props
      ∧ mv.values.map Prod.fst
        = (props.filter (fun kv => !(isNoneLeaf kv.2))).map Prod.fst
      ∧ mv.textures = (props.filter (fun kv => isTexLeaf kv.2)).map
          (fun kv => (wtex objname kv.1 ((alget m.partypes kv.1).getD "") kv.2).2) := by
  refine ⟨⟨objname, m, visitPairs objname m wtex wval wtexref props,
    (props.filter (fun kv => isTexLeaf kv.2)).map
      (fun kv => (wtex objname kv.1 ((alget m.partypes kv.1).getD "") kv.2).2),
    visitTrace props⟩, ?_, rfl, visitPairs_keys objname m wtex wval wtexref props, rfl⟩
  unfold MaterialValues.init
  rw [hprops]
  simp only [except_ok_bind]
  rw [mvLoop_spec objname m wtex wval wtexref props [] [] []
    htypes (fun _ _ => rfl) hnd]
  rfl

/-- C9 amended witness: a flat Diffuse-style material with one color leaf
and one None leaf is visited exactly at its color property, with one
value-writer event and no textures. -/
theorem c9_visit_amended_witness :
    (c9flat.shaderproperties
        = .ok [("color", .leaf (.col ⟨1, 0, 0⟩)), ("bump", .leaf .pynone)]
      ∧ (∀ kv ∈ [("color", PNode.leaf (.col ⟨1, 0, 0⟩)), ("bump", PNode.leaf .pynone)],
          (alget c9flat.partypes kv.1).isSome = true))
    ∧ ∃ mv, MaterialValues.init "o" c9flat cwtex cwval cwtexref = .ok mv
      ∧ mv.trace = visitTrace [("color", .leaf (.col ⟨1, 0, 0⟩)), ("bump", .leaf .pynone)]
      ∧ mv.values.map Prod.fst
        = ([("color", PNode.leaf (.col ⟨1, 0, 0⟩)), ("bump", PNode.leaf .pynone)].filter
            (fun kv => !(isNoneLeaf kv.2))).map Prod.fst
      ∧ mv.textures = ([("color", PNode.leaf (.col ⟨1, 0, 0⟩)),
          ("bump", PNode.leaf .pynone)].filter (fun kv => isTexLeaf kv.2)).map
          (fun kv => (cwtex "o" kv.1 ((alget c9flat.partypes kv.1).getD "") kv.2).2) := by
  refine ⟨⟨rfl, by decide⟩, ?_⟩
  exact c9_visit_amended "o" c9flat cwtex cwval cwtexref
    [("color", .leaf (.col ⟨1, 0, 0⟩)), ("bump", .leaf .pynone)]
    rfl (by decide) (by decide)

end FCRender
